import Mathlib

/-!
Shallow embedding of the BOLT12 offers subsystem of the wallet repository:
the three `Offers` backend classes (`src/lib/wallets/coreln/offers.ts`, the
legacy `src/lib/connections/coreln/offers.ts`, and the unnamed intermediate
variant), together with the per-connection bounded error history
`connectionErrors$` from `src/lib/streams.ts`.

Asynchronous RPC calls and the BOLT12 decoder are modelled as explicit
`Except`-valued inputs; the clock (`nowSeconds`) and the random id generator
are explicit parameters.  Each public operation returns an `OpResult`
recording the RPC requests it issued, the errors it pushed onto the
connection's error channel, and its returned value or thrown error.
-/

namespace Remote

/-! ## Decimal strings

The repository manipulates monetary amounts as decimal strings (via big.js).
We model that layer with an executable decimal printer/parser over `List Char`
so that concrete runs reduce by `rfl`/`decide` and the round-trip law is
provable. -/

/-- The character for a single decimal digit `d < 10`. -/
def digitChar (d : Nat) : Char := Char.ofNat (48 + d)

/-- The value of a decimal digit character, `none` for a non-digit. -/
def charVal (c : Char) : Option Nat :=
  if 48 ≤ c.toNat ∧ c.toNat ≤ 57 then some (c.toNat - 48) else none

/-- Parse a run of decimal digit characters, most significant first,
accumulating into `acc`; fails on any non-digit. -/
def parseDigitsAux : List Char → Nat → Option Nat
  | [], acc => some acc
  | c :: cs, acc =>
    match charVal c with
    | some d => parseDigitsAux cs (acc * 10 + d)
    | none => none

/-- Parse a non-empty all-digit string as a natural number. -/
def decStrToNat (s : String) : Option Nat :=
  if s.data.isEmpty then none else parseDigitsAux s.data 0

/-- Digits of `n`, most significant first; `fuel` bounds the recursion and any
`fuel ≥ n` is enough. -/
def natToDigitsAux : Nat → Nat → List Char
  | 0, _ => []
  | fuel + 1, n =>
    if n = 0 then [] else natToDigitsAux fuel (n / 10) ++ [digitChar (n % 10)]

/-- Print a natural number in decimal. -/
def natToDecStr (n : Nat) : String :=
  if n = 0 then "0" else String.mk (natToDigitsAux n n)

/-- Print an integer in decimal (minus sign for negatives), as big.js does. -/
def intToDecStr (z : Int) : String :=
  if z < 0 then String.mk ('-' :: (natToDecStr z.natAbs).data) else natToDecStr z.natAbs

/-- Parse an optionally minus-signed decimal integer; invalid input parses
as 0 (the model is only applied to validated numeric strings). -/
def parseIntChars (l : List Char) : Int :=
  match l with
  | [] => 0
  | c :: cs =>
    if c = '-' then -((parseDigitsAux cs 0).getD 0 : Int)
    else ((parseDigitsAux (c :: cs) 0).getD 0 : Int)

/-- Parse a decimal integer string. -/
def parseIntStr (s : String) : Int := parseIntChars s.data

/-- Model of `String.prototype.startsWith`, executable by `decide`. -/
def strStartsWith (s p : String) : Bool :=
  s.data.take p.data.length == p.data

/-! ## Raw errors and domain errors -/

/-- A raw RPC/application error as delivered by the transport:
a `{code, message}`-shaped object. -/
structure RawError where
  code : Option Int
  message : String
deriving DecidableEq

/-- The structured domain error produced by the error mapper: a namespaced
key, the context string naming the failing operation, the owning connection's
identifier and the raw underlying error. -/
structure ConnectionError where
  key : String
  context : String
  connectionId : String
  detail : RawError
deriving DecidableEq

/-- Modelled from the spec: `handleError` of `src/lib/wallets/coreln/error.js`
(not under src/).  Per spec section 4.4 it is a pure mapping
`(rawError, context, connectionId) -> ConnectionError` that never throws,
with a namespaced connection-error key. -/
def handleError (error : RawError) (context : String) (connectionId : String) :
    ConnectionError :=
  { key := "connection_error", context := context, connectionId := connectionId,
    detail := error }

/-- Modelled from the spec: the two-argument `handleError` of the legacy
`src/lib/connections/coreln/error.js` (not under src/).  Its call sites pass
no connection identity, so the mapped error carries an empty one; per spec
section 4.4 the mapper is pure and never throws. -/
def legacyHandleError (error : RawError) (context : String) : ConnectionError :=
  { key := "connection_error", context := context, connectionId := "",
    detail := error }

/-! ## Modelled conversion helpers

`src/lib/conversion.js` and the coreln `utils.js` files are not under src/;
the definitions below are modelled from spec section 4.1. -/

/-- Modelled from the spec: `satsToMsats` of `src/lib/conversion.js`
(not under src/): multiply an integral satoshi decimal string by 1000,
exactly. -/
def satsToMsats (sats : String) : String :=
  natToDecStr (((decStrToNat sats).getD 0) * 1000)

/-- Modelled from the spec: `msatsToSats` of `src/lib/conversion.js`
(not under src/): divide a millisatoshi decimal string by 1000 with
round-to-nearest (half up) to whole satoshis. -/
def msatsToSats (msats : String) : String :=
  intToDecStr ((parseIntStr msats + 500) / 1000)

/-- Strip one trailing "msat" unit suffix from a character list. -/
def stripMsatChars (l : List Char) : List Char :=
  if l.reverse.take 4 = ['t', 'a', 's', 'm'] then (l.reverse.drop 4).reverse else l

/-- Modelled from the spec: `formatMsatString` of
`src/lib/wallets/coreln/utils.js` (not under src/): strips a trailing
"msat" unit suffix and fails unless the remaining content is a non-empty
non-negative integer string. -/
def formatMsatString (raw : String) : Except RawError String :=
  let l := stripMsatChars raw.data
  match parseDigitsAux l 0 with
  | some _ => if l.isEmpty then Except.error ⟨none, "invalid msat string"⟩
              else Except.ok (String.mk l)
  | none => Except.error ⟨none, "invalid msat string"⟩

/-- `formatMsatString` applied to a possibly-undefined value: applying it to
`undefined` (both fallbacks absent) fails like any invalid input. -/
def formatMsatStringOpt (raw : Option String) : Except RawError String :=
  match raw with
  | some s => formatMsatString s
  | none => Except.error ⟨none, "invalid msat string"⟩

/-- Modelled from the spec: `formatMsat` of the legacy
`src/lib/utils.js` (not under src/), used by the legacy `sendInvoice`:
msat-string normalization stripping a trailing "msat" suffix. -/
def formatMsat (raw : Option String) : String :=
  String.mk (stripMsatChars (raw.getD "").data)

/-- The big.js subtraction `Big(a).minus(b).toString()` on integer decimal
strings. -/
def bigMinus (a b : String) : String :=
  intToDecStr (parseIntStr a - parseIntStr b)

/-- Modelled from the spec: `invoiceStatusToPaymentStatus` of
`src/lib/wallets/coreln/utils.js` (not under src/): normalizes the node's
invoice status into the domain payment status. -/
def invoiceStatusToPaymentStatus (status : String) (expiresAt : Option Nat) :
    String :=
  if status = "paid" then "complete"
  else if status = "expired" then "expired"
  else
    match expiresAt with
    | _ => "pending"

/-- Modelled from the spec: the one-argument legacy
`invoiceStatusToPaymentStatus` of `src/lib/connections/coreln/utils.js`
(not under src/). -/
def legacyInvoiceStatusToPaymentStatus (status : String) : String :=
  if status = "paid" then "complete"
  else if status = "expired" then "expired"
  else "pending"

/-! ## JavaScript truthiness helpers

The source leans on JS truthiness (`undefined` and `""` and `0` are falsy);
these helpers make that explicit on `Option`-modelled values. -/

/-- Truthiness of an optional string: `undefined` and `""` are falsy. -/
def jsTruthyStr (v : Option String) : Bool :=
  match v with
  | none => false
  | some s => !(s == "")

/-- The JS expression `v && f(v)` for an optional string `v`. -/
def jsAndStr (v : Option String) (f : String → String) : Option String :=
  match v with
  | none => none
  | some s => if s = "" then none else some (f s)

/-- The JS expression `a || b` for optional strings. -/
def jsOrStr (a b : Option String) : Option String :=
  match a with
  | none => b
  | some s => if s = "" then b else some s

/-- The JS expression `v && f(v)` for an optional number `v` (`0` is falsy
and propagates itself). -/
def jsAndNat (v : Option Nat) (f : Nat → Nat) : Option Nat :=
  match v with
  | none => none
  | some n => if n = 0 then some 0 else some (f n)

/-- The JS ternary `v ? v : dflt` for an optional number (`0` is falsy). -/
def jsNumOr (v : Option Nat) (dflt : Nat) : Nat :=
  match v with
  | none => dflt
  | some n => if n = 0 then dflt else n

/-! ## RPC requests -/

/-- One positional or named RPC parameter value. -/
inductive RpcParam where
  | str (v : String)
  | num (v : Nat)
  | bool (v : Bool)
  | undef
deriving DecidableEq

/-- An optional string parameter: `undefined` when absent. -/
def optStr (v : Option String) : RpcParam :=
  match v with
  | some s => RpcParam.str s
  | none => RpcParam.undef

/-- An optional numeric parameter: `undefined` when absent. -/
def optNum (v : Option Nat) : RpcParam :=
  match v with
  | some n => RpcParam.num n
  | none => RpcParam.undef

/-- An optional boolean parameter: `undefined` when absent. -/
def optBool (v : Option Bool) : RpcParam :=
  match v with
  | some b => RpcParam.bool b
  | none => RpcParam.undef

/-- The params of an RPC call: a named object, a positional list, or absent. -/
inductive RpcParams where
  | obj (fields : List (String × RpcParam))
  | pos (l : List RpcParam)
  | empty
deriving DecidableEq

/-- One RPC call as issued through `connection.rpc`. -/
structure RpcRequest where
  method : String
  params : RpcParams
deriving DecidableEq

/-- Look up a named field of an object-style parameter list. -/
def lookupField (fields : List (String × RpcParam)) (k : String) :
    Option RpcParam :=
  List.lookup k fields

/-! ## Domain data model -/

/-- The decoded form of a BOLT12 offer string, as produced by the external
`decodeBolt12` codec. -/
structure DecodedOffer where
  description : String
  denomination : String
  amount : Option String
  issuer : Option String
deriving DecidableEq

/-- A pay or withdraw offer.  Optional owner references cover the three
backend variants (`walletId`, `nodeId`, `connectionId`). -/
structure Offer where
  id : String
  bolt12 : String
  type : String
  denomination : String
  amount : Option String
  description : String
  issuer : Option String
  label : Option String
  active : Bool
  singleUse : Bool
  used : Bool
  expiry : Option Nat
  quantityMax : Option Nat
  walletId : Option String
  nodeId : Option String
  connectionId : Option String
deriving DecidableEq

/-- A BOLT12-linked invoice, covering the field shapes assembled by
`sendInvoice` and `payInvoice` across the backend variants. -/
structure Invoice where
  id : String
  hash : String
  preimage : Option String
  type : String
  direction : String
  amount : Option String
  value : Option String
  fee : Option String
  status : String
  createdAt : Option Nat
  startedAt : Option Nat
  completedAt : Nat
  expiresAt : Option Nat
  payIndex : Option Nat
  request : Option String
  invoice : Option String
  walletId : Option String
  nodeId : Option String
  connectionId : Option String
deriving DecidableEq

/-! ## RPC response shapes -/

/-- One entry of the `listoffers` response. -/
structure OfferSummary where
  offer_id : String
  bolt12 : String
  active : Bool
  single_use : Bool
  used : Bool
  label : Option String
deriving DecidableEq

/-- The `listoffers` response. -/
structure ListOffersResponse where
  offers : List OfferSummary
deriving DecidableEq

/-- One entry of the `listinvoicerequests` response. -/
structure InvoiceRequestSummary where
  invreq_id : String
  bolt12 : String
  active : Bool
  single_use : Bool
  used : Bool
  label : Option String
deriving DecidableEq

/-- The `listinvoicerequests` response. -/
structure ListInvoiceRequestsResponse where
  invoicerequests : List InvoiceRequestSummary
deriving DecidableEq

/-- The `offer` RPC response. -/
structure CreatePayOfferResponse where
  offer_id : String
  bolt12 : String
  used : Bool
  single_use : Bool
  active : Bool
deriving DecidableEq

/-- The `invoicerequest` RPC response. -/
structure CreateWithdrawOfferResponse where
  invreq_id : String
  bolt12 : String
  used : Bool
  single_use : Bool
  active : Bool
deriving DecidableEq

/-- The `fetchinvoice` RPC response. -/
structure FetchInvoiceResponse where
  invoice : String
deriving DecidableEq

/-- The `sendinvoice` RPC response. -/
structure SendInvoiceResponse where
  payment_hash : String
  payment_preimage : Option String
  status : String
  bolt12 : Option String
  expires_at : Option Nat
  paid_at : Option Nat
  amount_received_msat : Option String
  pay_index : Option Nat
deriving DecidableEq

/-- The `pay` RPC response. -/
structure PayResponse where
  payment_hash : String
  payment_preimage : String
  created_at : Nat
  amount_msat : String
  amount_sent_msat : String
  status : String
  destination : String
deriving DecidableEq

/-! ## Operation inputs -/

/-- Input of `createPay`. -/
structure CreatePayOfferOptions where
  amount : Option String
  description : String
  issuer : Option String
  label : String
  quantityMax : Option Nat
  expiry : Option Nat
  singleUse : Option Bool
deriving DecidableEq

/-- Input of `createWithdraw` (`amount` is mandatory). -/
structure CreateWithdrawOfferOptions where
  amount : String
  description : String
  issuer : Option String
  label : String
  expiry : Option Nat
  singleUse : Option Bool
deriving DecidableEq

/-- Input of `fetchInvoice`. -/
structure FetchInvoiceOptions where
  amount : Option String
  offer : String
  quantity : Option Nat
  timeout : Option Nat
  payerNote : Option String
deriving DecidableEq

/-- Input of `sendInvoice`. -/
structure SendInvoiceOptions where
  offer : String
  label : String
  amount : Option String
  timeout : Option Nat
  quantity : Option Nat
deriving DecidableEq

/-- The wallet-oriented coreln connection: the offers component reads its
`walletId` and pushes mapped errors onto its error channel. -/
structure CorelnConnection where
  walletId : String
deriving DecidableEq

/-- The identity record of a legacy connection-oriented coreln connection. -/
structure ConnectionInfo where
  id : String
  connectionId : String
deriving DecidableEq

/-- The legacy connection-oriented coreln connection. -/
structure LegacyCorelnConnection where
  info : ConnectionInfo
deriving DecidableEq

/-- Decidable equality for `Except`, so that concrete operation outcomes can
be checked by `decide`. -/
instance exceptDecEq {ε α : Type} [DecidableEq ε] [DecidableEq α] :
    DecidableEq (Except ε α) := fun x y =>
  match x, y with
  | Except.ok a, Except.ok b =>
    if h : a = b then isTrue (by rw [h])
    else isFalse (by intro hc; injection hc; contradiction)
  | Except.error e, Except.error f =>
    if h : e = f then isTrue (by rw [h])
    else isFalse (by intro hc; injection hc; contradiction)
  | Except.ok _, Except.error _ => isFalse (by intro hc; exact Except.noConfusion hc)
  | Except.error _, Except.ok _ => isFalse (by intro hc; exact Except.noConfusion hc)

/-- The observable outcome of one public offers operation: the RPC requests
it issued, the errors it pushed onto the connection's error channel (in push
order), and its value or thrown error. -/
structure OpResult (α : Type) where
  requests : List RpcRequest
  emitted : List ConnectionError
  result : Except ConnectionError α

/-- The try/catch wrapper shared by every operation of the wallets backend:
on any failure of the body, map it through `handleError` with the operation's
context and the connection's `walletId`, push the mapped error onto the
connection's error channel, then throw it. -/
def wrapOp {α : Type} (requests : List RpcRequest) (context : String)
    (ownerId : String) (body : Except RawError α) : OpResult α :=
  match body with
  | Except.ok v => { requests := requests, emitted := [], result := Except.ok v }
  | Except.error e =>
    let connectionError := handleError e context ownerId
    { requests := requests, emitted := [connectionError],
      result := Except.error connectionError }

/-- The try/catch wrapper of the legacy connections backend: on failure the
mapped error is thrown to the caller without being pushed anywhere. -/
def legacyWrapOp {α : Type} (requests : List RpcRequest) (context : String)
    (body : Except RawError α) : OpResult α :=
  match body with
  | Except.ok v => { requests := requests, emitted := [], result := Except.ok v }
  | Except.error e =>
    { requests := requests, emitted := [],
      result := Except.error (legacyHandleError e context) }

/-- `Promise.all` over a list of `Except`-valued computations: all succeed,
in input order, or the operation fails. -/
def mapExcept {α β ε : Type} (f : α → Except ε β) : List α → Except ε (List β)
  | [] => Except.ok []
  | a :: as =>
    match f a with
    | Except.error e => Except.error e
    | Except.ok b =>
      match mapExcept f as with
      | Except.error e => Except.error e
      | Except.ok bs => Except.ok (b :: bs)

/-! ## The wallets-backend `Offers` class (`src/lib/wallets/coreln/offers.ts`)

Each method takes the outcome of its RPC call(s) and the external decode
function as explicit inputs; `now` is the value of `nowSeconds()`. -/

namespace WalletsCoreln

/-- `Offers.get`: lists offers and invoice requests concurrently, decodes
every `bolt12` field, and returns pay-offers (in RPC order) followed by
invoice-requests (in RPC order); any failure is mapped, pushed and
re-thrown with context "get (offers)". -/
def Offers.get (conn : CorelnConnection)
    (listOffersResult : Except RawError ListOffersResponse)
    (listInvoiceRequestsResult : Except RawError ListInvoiceRequestsResponse)
    (decodeBolt12 : String → Except RawError DecodedOffer) :
    OpResult (List Offer) :=
  wrapOp [{ method := "listoffers", params := RpcParams.empty },
          { method := "listinvoicerequests", params := RpcParams.empty }]
    "get (offers)" conn.walletId (do
      let offersResponse ← listOffersResult
      let invoiceRequestsResponse ← listInvoiceRequestsResult
      let formattedOffers ← mapExcept (fun offer =>
        (decodeBolt12 offer.bolt12).map fun d =>
          { id := offer.offer_id, active := offer.active,
            singleUse := offer.single_use, used := offer.used,
            bolt12 := offer.bolt12, label := offer.label,
            walletId := some conn.walletId, description := d.description,
            type := "pay", denomination := d.denomination, amount := d.amount,
            issuer := d.issuer, expiry := none, quantityMax := none,
            nodeId := none, connectionId := none })
        offersResponse.offers
      let formattedInvoiceRequests ← mapExcept (fun offer =>
        (decodeBolt12 offer.bolt12).map fun d =>
          { id := offer.invreq_id, active := offer.active,
            singleUse := offer.single_use, used := offer.used,
            bolt12 := offer.bolt12, label := offer.label,
            walletId := some conn.walletId, description := d.description,
            type := "withdraw", denomination := d.denomination,
            amount := d.amount, issuer := d.issuer, expiry := none,
            quantityMax := none, nodeId := none, connectionId := none })
        invoiceRequestsResponse.invoicerequests
      pure (formattedOffers ++ formattedInvoiceRequests))

/-- `Offers.createPay`: issues the `offer` RPC with converted amount
(`'any'` when absent) and `absolute_expiry = nowSeconds() + expiry`; the
returned Offer carries the absolute expiry. -/
def Offers.createPay (conn : CorelnConnection)
    (options : CreatePayOfferOptions) (now : Nat)
    (rpcResult : Except RawError CreatePayOfferResponse) : OpResult Offer :=
  let absoluteExpiry := jsAndNat options.expiry (fun e => now + e)
  wrapOp [{ method := "offer", params := RpcParams.obj [
      ("amount", if jsTruthyStr options.amount
        then RpcParam.str (satsToMsats (options.amount.getD ""))
        else RpcParam.str "any"),
      ("description", RpcParam.str options.description),
      ("issuer", optStr options.issuer),
      ("label", RpcParam.str options.label),
      ("quantity_max", optNum options.quantityMax),
      ("absolute_expiry", optNum absoluteExpiry),
      ("single_use", optBool options.singleUse)] }]
    "createPay (offers)" conn.walletId
    (rpcResult.map fun r =>
      { id := r.offer_id, bolt12 := r.bolt12, type := "pay",
        denomination := "sats", amount := options.amount,
        description := options.description, walletId := some conn.walletId,
        used := r.used, singleUse := r.single_use, active := r.active,
        label := some options.label, expiry := absoluteExpiry,
        issuer := options.issuer, quantityMax := options.quantityMax,
        nodeId := none, connectionId := none })

/-- `Offers.disablePay`: issues `disableoffer` with `{offer_id}`. -/
def Offers.disablePay (conn : CorelnConnection) (offerId : String)
    (rpcResult : Except RawError Unit) : OpResult Unit :=
  wrapOp [{ method := "disableoffer",
            params := RpcParams.obj [("offer_id", RpcParam.str offerId)] }]
    "disablePay (offers)" conn.walletId rpcResult

/-- `Offers.createWithdraw`: issues the `invoicerequest` RPC with the
mandatory amount converted to msats and `absolute_expiry = expiry +
nowSeconds()`; the returned Offer carries the raw relative `expiry`. -/
def Offers.createWithdraw (conn : CorelnConnection)
    (options : CreateWithdrawOfferOptions) (now : Nat)
    (rpcResult : Except RawError CreateWithdrawOfferResponse) :
    OpResult Offer :=
  let absoluteExpiry := jsAndNat options.expiry (fun e => e + now)
  wrapOp [{ method := "invoicerequest", params := RpcParams.obj [
      ("amount", RpcParam.str (satsToMsats options.amount)),
      ("description", RpcParam.str options.description),
      ("issuer", optStr options.issuer),
      ("label", RpcParam.str options.label),
      ("absolute_expiry", optNum absoluteExpiry),
      ("single_use", optBool options.singleUse)] }]
    "createWithdraw (offers)" conn.walletId
    (rpcResult.map fun r =>
      { id := r.invreq_id, bolt12 := r.bolt12, type := "withdraw",
        denomination := "sats", amount := some options.amount,
        description := options.description, walletId := some conn.walletId,
        used := r.used, singleUse := r.single_use, active := r.active,
        label := some options.label, expiry := options.expiry,
        issuer := options.issuer, quantityMax := none,
        nodeId := none, connectionId := none })

/-- `Offers.disableWithdraw`: issues `disableinvoicerequest` with
`{invreq_id}`. -/
def Offers.disableWithdraw (conn : CorelnConnection)
    (invoiceRequestId : String) (rpcResult : Except RawError Unit) :
    OpResult Unit :=
  wrapOp [{ method := "disableinvoicerequest",
            params := RpcParams.obj
              [("invreq_id", RpcParam.str invoiceRequestId)] }]
    "disableWithdraw (offers)" conn.walletId rpcResult

/-- `Offers.fetchInvoice`: issues `fetchinvoice` and returns the raw invoice
string. -/
def Offers.fetchInvoice (conn : CorelnConnection)
    (options : FetchInvoiceOptions)
    (rpcResult : Except RawError FetchInvoiceResponse) : OpResult String :=
  wrapOp [{ method := "fetchinvoice", params := RpcParams.obj [
      ("offer", RpcParam.str options.offer),
      ("amount_msat", optStr (jsAndStr options.amount satsToMsats)),
      ("quantity", optNum options.quantity),
      ("timeout", optNum options.timeout),
      ("payer_note", optStr options.payerNote)] }]
    "fetchInvoice (offers)" conn.walletId
    (rpcResult.map fun r => r.invoice)

/-- `Offers.sendInvoice`: issues `sendinvoice` with the positional,
amount-conditional parameter list (amount converted to msats when present,
omitted entirely when absent) and assembles the receive-path Invoice. -/
def Offers.sendInvoice (conn : CorelnConnection)
    (options : SendInvoiceOptions) (now : Nat)
    (rpcResult : Except RawError SendInvoiceResponse) : OpResult Invoice :=
  let createdAt := now
  let amountMsat := jsAndStr options.amount satsToMsats
  let orderedParams :=
    if jsTruthyStr amountMsat then
      [RpcParam.str options.offer, RpcParam.str options.label,
       optStr amountMsat, optNum options.timeout, optNum options.quantity]
    else
      [RpcParam.str options.offer, RpcParam.str options.label,
       optNum options.timeout, optNum options.quantity]
  wrapOp [{ method := "sendinvoice", params := RpcParams.pos orderedParams }]
    "sendInvoice (offers)" conn.walletId (do
      let r ← rpcResult
      let m ← formatMsatStringOpt (jsOrStr r.amount_received_msat amountMsat)
      pure {
        id := options.label, hash := r.payment_hash,
        preimage := r.payment_preimage, type := "bolt12",
        direction := "receive", amount := some (msatsToSats m),
        completedAt := jsNumOr r.paid_at now, expiresAt := r.expires_at,
        createdAt := some createdAt, fee := none,
        status := invoiceStatusToPaymentStatus r.status r.expires_at,
        request := r.bolt12, payIndex := r.pay_index,
        walletId := some conn.walletId, value := none, invoice := none,
        startedAt := none, nodeId := none, connectionId := none })

/-- `Offers.payInvoice`: issues `pay` with a single positional argument and
assembles the send-path Invoice with `fee = amount_sent_msat - amount_msat`
in sats; its catch block tags failures with the context literal
"sendInvoice (offers)". -/
def Offers.payInvoice (conn : CorelnConnection) (bolt12 : String)
    (randomHex : String) (now : Nat)
    (rpcResult : Except RawError PayResponse) : OpResult Invoice :=
  wrapOp [{ method := "pay", params := RpcParams.pos [RpcParam.str bolt12] }]
    "sendInvoice (offers)" conn.walletId (do
      let r ← rpcResult
      let ma ← formatMsatString r.amount_msat
      let ms ← formatMsatString r.amount_sent_msat
      pure {
        id := randomHex, hash := r.payment_hash,
        preimage := some r.payment_preimage, nodeId := some r.destination,
        type := "bolt12", direction := "send",
        amount := some (msatsToSats ma), completedAt := now,
        expiresAt := none, createdAt := some r.created_at,
        fee := some (msatsToSats (bigMinus ms ma)), status := r.status,
        request := some bolt12, walletId := some conn.walletId,
        value := none, invoice := none, startedAt := none,
        connectionId := none, payIndex := none })

end WalletsCoreln

/-! ## The legacy connections-backend `Offers` class
(`src/lib/connections/coreln/offers.ts`): parameters are passed through
verbatim and failures are re-thrown without being pushed. -/

namespace ConnectionsCoreln

/-- Legacy `Offers.createPay`: passes `amount` and `expiry` through verbatim
and throws mapped failures without pushing them. -/
def Offers.createPay (conn : LegacyCorelnConnection)
    (options : CreatePayOfferOptions)
    (rpcResult : Except RawError CreatePayOfferResponse) : OpResult Offer :=
  legacyWrapOp [{ method := "offer", params := RpcParams.obj [
      ("amount", optStr options.amount),
      ("description", RpcParam.str options.description),
      ("issuer", optStr options.issuer),
      ("label", RpcParam.str options.label),
      ("quantity_max", optNum options.quantityMax),
      ("absolute_expiry", optNum options.expiry),
      ("single_use", optBool options.singleUse)] }]
    "createPay (offers)"
    (rpcResult.map fun r =>
      { id := r.offer_id, bolt12 := r.bolt12, type := "pay",
        denomination := "msats", amount := options.amount,
        description := options.description, nodeId := some conn.info.id,
        used := r.used, singleUse := r.single_use, active := r.active,
        label := some options.label, expiry := options.expiry,
        issuer := options.issuer, quantityMax := options.quantityMax,
        walletId := none, connectionId := none })

/-- Legacy `Offers.sendInvoice`: positional amount-conditional params with
the amount passed through verbatim; throws mapped failures without
pushing. -/
def Offers.sendInvoice (conn : LegacyCorelnConnection)
    (options : SendInvoiceOptions) (now : Nat)
    (rpcResult : Except RawError SendInvoiceResponse) : OpResult Invoice :=
  let createdAt := now
  let orderedParams :=
    if jsTruthyStr options.amount then
      [RpcParam.str options.offer, RpcParam.str options.label,
       optStr options.amount, optNum options.timeout,
       optNum options.quantity]
    else
      [RpcParam.str options.offer, RpcParam.str options.label,
       optNum options.timeout, optNum options.quantity]
  legacyWrapOp
    [{ method := "sendinvoice", params := RpcParams.pos orderedParams }]
    "sendInvoice (offers)"
    (rpcResult.map fun r =>
      { id := options.label, hash := r.payment_hash,
        preimage := r.payment_preimage, type := "bolt12",
        direction := "receive",
        value := some (formatMsat (jsOrStr r.amount_received_msat
          options.amount)),
        completedAt := jsNumOr r.paid_at now, expiresAt := r.expires_at,
        startedAt := some createdAt, fee := none,
        status := legacyInvoiceStatusToPaymentStatus r.status,
        invoice := r.bolt12, payIndex := r.pay_index,
        nodeId := some conn.info.id, amount := none, createdAt := none,
        request := none, walletId := none, connectionId := none })

end ConnectionsCoreln

/-! ## The intermediate connections-backend `Offers` class (the unnamed
source file): same verbatim parameter passing as the legacy backend, but
failures are mapped with the connection id, pushed, then re-thrown. -/

namespace Part000

/-- Intermediate `Offers.createPay`: verbatim params, push-then-throw
failure handling keyed by `connection.info.connectionId`. -/
def Offers.createPay (conn : LegacyCorelnConnection)
    (options : CreatePayOfferOptions)
    (rpcResult : Except RawError CreatePayOfferResponse) : OpResult Offer :=
  wrapOp [{ method := "offer", params := RpcParams.obj [
      ("amount", optStr options.amount),
      ("description", RpcParam.str options.description),
      ("issuer", optStr options.issuer),
      ("label", RpcParam.str options.label),
      ("quantity_max", optNum options.quantityMax),
      ("absolute_expiry", optNum options.expiry),
      ("single_use", optBool options.singleUse)] }]
    "createPay (offers)" conn.info.connectionId
    (rpcResult.map fun r =>
      { id := r.offer_id, bolt12 := r.bolt12, type := "pay",
        denomination := "msats", amount := options.amount,
        description := options.description, nodeId := some conn.info.id,
        connectionId := some conn.info.connectionId, used := r.used,
        singleUse := r.single_use, active := r.active,
        label := some options.label, expiry := options.expiry,
        issuer := options.issuer, quantityMax := options.quantityMax,
        walletId := none })

end Part000

/-! ## The per-connection error history (`src/lib/streams.ts`)

`connectionErrors$` filters the global error subject down to errors whose
key starts with "connection_", then folds them into a record keyed by
`detail.connectionId`: each push appends and then truncates the array to
length at most 10 via `errors.length = Math.min(errors.length, 10)`. -/

/-- The `detail` payload of an application error as read by streams.ts. -/
structure AppErrorDetail where
  connectionId : Option String
  message : String
deriving DecidableEq

/-- An application error flowing through the global `errors$` subject. -/
structure AppError where
  key : String
  detail : AppErrorDetail
deriving DecidableEq

/-- The accumulated record of per-connection error histories, keys in
insertion order. -/
abbrev ConnErrMap := List (String × List AppError)

/-- Read one connection's history. -/
def lookupHistory (acc : ConnErrMap) (connectionId : String) :
    Option (List AppError) :=
  match acc with
  | [] => none
  | (k, v) :: rest =>
    if k = connectionId then some v else lookupHistory rest connectionId

/-- Write one connection's history, preserving key insertion order. -/
def setHistory (acc : ConnErrMap) (connectionId : String)
    (errors : List AppError) : ConnErrMap :=
  match acc with
  | [] => [(connectionId, errors)]
  | (k, v) :: rest =>
    if k = connectionId then (connectionId, errors) :: rest
    else (k, v) :: setHistory rest connectionId errors

/-- One step of the `scan` in `connectionErrors$`: drop errors without a
(truthy) `detail.connectionId`; otherwise append to that connection's array
and truncate it to its first 10 entries
(`errors.push(value); errors.length = Math.min(errors.length, 10)`). -/
def connectionErrorsStep (acc : ConnErrMap) (value : AppError) : ConnErrMap :=
  match value.detail.connectionId with
  | none => acc
  | some connectionId =>
    if connectionId = "" then acc
    else
      let errors := (lookupHistory acc connectionId).getD []
      setHistory acc connectionId ((errors ++ [value]).take 10)

/-- The accumulated value of `connectionErrors$` after the given sequence of
events on `errors$`: filter on the "connection_" key prefix, then scan. -/
def connectionErrors (events : List AppError) : ConnErrMap :=
  (events.filter fun error => strStartsWith error.key "connection_").foldl
    connectionErrorsStep []

/-- The named fields of an object-style RPC request (empty for positional
or absent params). -/
def requestFields (r : RpcRequest) : List (String × RpcParam) :=
  match r.params with
  | RpcParams.obj fields => fields
  | _ => []

/-- The invariant of the accumulated per-connection error histories: every
stored error has a "connection_"-prefixed key and names its own history's
connection id in its detail. -/
def HistInv (acc : ConnErrMap) : Prop :=
  ∀ k l, lookupHistory acc k = some l →
    ∀ e ∈ l, strStartsWith e.key "connection_" = true ∧
      e.detail.connectionId = some k

/-- The 15 sequential connection errors of the bounded-history test
scenario, all targeting connection "c1". -/
def testError (i : Nat) : AppError :=
  { key := "connection_test",
    detail := { connectionId := some "c1", message := natToDecStr i } }

/-! ## Helper lemmas: the decimal printer/parser round-trip -/

theorem toNat_digitChar (d : Nat) (h : d < 10) : (digitChar d).toNat = 48 + d := by
  have hv : Nat.isValidChar (48 + d) := Or.inl (by omega)
  simp only [digitChar, Char.ofNat, hv, dif_pos, Char.ofNatAux, Char.toNat]
  rfl

theorem charVal_digitChar (d : Nat) (h : d < 10) : charVal (digitChar d) = some d := by
  unfold charVal
  rw [toNat_digitChar d h, if_pos (by omega)]
  congr 1
  omega

theorem parseDigitsAux_append (l1 l2 : List Char) (acc : Nat) :
    parseDigitsAux (l1 ++ l2) acc =
      match parseDigitsAux l1 acc with
      | some m => parseDigitsAux l2 m
      | none => none := by
  induction l1 generalizing acc with
  | nil => rfl
  | cons c cs ih =>
    simp only [List.cons_append, parseDigitsAux]
    cases charVal c with
    | none => rfl
    | some d => exact ih _

theorem natToDigitsAux_ne_nil (fuel n : Nat) (h : n ≠ 0) :
    natToDigitsAux (fuel + 1) n ≠ [] := by
  intro hc
  simp [natToDigitsAux, h] at hc

theorem parseDigitsAux_natToDigitsAux (fuel : Nat) :
    ∀ n acc, n ≤ fuel →
      parseDigitsAux (natToDigitsAux fuel n) acc =
        some (acc * 10 ^ (natToDigitsAux fuel n).length + n) := by
  induction fuel with
  | zero =>
    intro n acc h
    have h0 : n = 0 := Nat.le_zero.mp h
    subst h0
    simp [natToDigitsAux, parseDigitsAux]
  | succ fuel ih =>
    intro n acc h
    by_cases h0 : n = 0
    · subst h0
      simp [natToDigitsAux, parseDigitsAux]
    · have hdiv : n / 10 ≤ fuel := by
        have : n / 10 < n := Nat.div_lt_self (Nat.pos_of_ne_zero h0) (by norm_num)
        omega
      simp only [natToDigitsAux, h0, if_neg, if_false]
      rw [parseDigitsAux_append, ih (n / 10) acc hdiv]
      have hd : charVal (digitChar (n % 10)) = some (n % 10) :=
        charVal_digitChar _ (Nat.mod_lt _ (by norm_num))
      simp only [parseDigitsAux, hd, List.length_append, List.length_cons,
        List.length_nil]
      have key : ∀ B : Nat, (B + n / 10) * 10 + n % 10 = B * 10 + n := by
        intro B
        omega
      rw [key, pow_succ]
      ring_nf

theorem decStrToNat_natToDecStr (n : Nat) : decStrToNat (natToDecStr n) = some n := by
  by_cases h0 : n = 0
  · subst h0
    decide
  · unfold natToDecStr
    rw [if_neg h0]
    have hp := parseDigitsAux_natToDigitsAux n n 0 (le_refl n)
    cases hn : natToDigitsAux n n with
    | nil =>
      exfalso
      cases n with
      | zero => exact h0 rfl
      | succ m => exact natToDigitsAux_ne_nil m (m + 1) (by omega) hn
    | cons c cs =>
      rw [hn] at hp
      show (if (c :: cs).isEmpty then none
            else parseDigitsAux (c :: cs) 0) = some n
      simpa using hp

theorem natToDecStr_ne_empty (n : Nat) : natToDecStr n ≠ "" := by
  unfold natToDecStr
  by_cases h : n = 0
  · rw [if_pos h]
    decide
  · rw [if_neg h]
    cases n with
    | zero => exact absurd rfl h
    | succ m =>
      intro hc
      apply natToDigitsAux_ne_nil m (m + 1) (by omega)
      have := congrArg String.data hc
      simpa using this

theorem parseIntStr_eq (s : String) (a : Nat) (h : decStrToNat s = some a) :
    parseIntStr s = (a : Int) := by
  unfold decStrToNat at h
  unfold parseIntStr
  cases hd : s.data with
  | nil =>
    rw [hd] at h
    simp at h
  | cons c cs =>
    rw [hd] at h
    simp [List.isEmpty] at h
    have hc : ¬(c = '-') := by
      intro he
      rw [he] at h
      simp [parseDigitsAux, show charVal ('-') = none from by decide] at h
    simp only [parseIntChars]
    rw [if_neg hc, h]
    rfl

theorem parseIntStr_natToDecStr (n : Nat) : parseIntStr (natToDecStr n) = (n : Int) :=
  parseIntStr_eq _ _ (decStrToNat_natToDecStr n)

theorem intToDecStr_natCast (n : Nat) : intToDecStr ((n : Nat) : Int) = natToDecStr n := by
  unfold intToDecStr
  rw [if_neg (Int.not_lt.mpr (Int.natCast_nonneg n))]
  simp

theorem msatsToSats_natToDecStr (k : Nat) :
    msatsToSats (natToDecStr (1000 * k)) = natToDecStr k := by
  unfold msatsToSats
  rw [parseIntStr_natToDecStr]
  have h1 : ((1000 * k : Nat) : Int) + 500 = 500 + (k : Int) * 1000 := by
    push_cast
    ring
  rw [h1, Int.add_mul_ediv_right _ _ (by norm_num : (1000 : Int) ≠ 0)]
  have h2 : (500 : Int) / 1000 = 0 := by decide
  rw [h2, zero_add]
  exact intToDecStr_natCast k

theorem bigMinus_eq (ms ma : String) (a k : Nat)
    (ha : decStrToNat ma = some a) (hs : decStrToNat ms = some (a + 1000 * k)) :
    bigMinus ms ma = natToDecStr (1000 * k) := by
  unfold bigMinus
  rw [parseIntStr_eq ms _ hs, parseIntStr_eq ma _ ha]
  have : ((a + 1000 * k : Nat) : Int) - (a : Int) = ((1000 * k : Nat) : Int) := by
    push_cast
    ring
  rw [this]
  exact intToDecStr_natCast (1000 * k)

/-! ## Helper lemmas: the try/catch wrappers and `Except` plumbing -/

theorem exceptOkBind {ε α β : Type} (a : α) (f : α → Except ε β) :
    (Except.ok a >>= f : Except ε β) = f a := rfl

theorem exceptErrorBind {ε α β : Type} (e : ε) (f : α → Except ε β) :
    (Except.error e >>= f : Except ε β) = Except.error e := rfl

theorem exceptPure {ε β : Type} (b : β) : (pure b : Except ε β) = Except.ok b := rfl

theorem wrapOp_requests {α : Type} (reqs : List RpcRequest) (ctx oid : String)
    (body : Except RawError α) : (wrapOp reqs ctx oid body).requests = reqs := by
  cases body <;> rfl

theorem wrapOp_result_ok {α : Type} (reqs : List RpcRequest) (ctx oid : String)
    (body : Except RawError α) (v : α)
    (h : (wrapOp reqs ctx oid body).result = Except.ok v) : body = Except.ok v := by
  cases body with
  | ok w => simpa [wrapOp] using h
  | error e => simp [wrapOp] at h

theorem wrapOp_push_of_error {α : Type} (reqs : List RpcRequest) (ctx oid : String)
    (body : Except RawError α) (e : ConnectionError)
    (h : (wrapOp reqs ctx oid body).result = Except.error e) :
    (wrapOp reqs ctx oid body).emitted = [e] := by
  cases body with
  | ok v => simp [wrapOp] at h
  | error e0 =>
    simp [wrapOp] at h ⊢
    exact h

theorem legacyWrapOp_emitted {α : Type} (reqs : List RpcRequest) (ctx : String)
    (body : Except RawError α) : (legacyWrapOp reqs ctx body).emitted = [] := by
  cases body <;> rfl

theorem legacyWrapOp_requests {α : Type} (reqs : List RpcRequest) (ctx : String)
    (body : Except RawError α) : (legacyWrapOp reqs ctx body).requests = reqs := by
  cases body <;> rfl

theorem mapExcept_ok_map {α β γ : Type} (f : α → Except RawError β) (g : β → γ)
    (h : α → γ) (hf : ∀ a b, f a = Except.ok b → g b = h a) :
    ∀ (l : List α) (bs : List β), mapExcept f l = Except.ok bs → bs.map g = l.map h := by
  intro l
  induction l with
  | nil =>
    intro bs hbs
    simp [mapExcept] at hbs
    subst hbs
    simp
  | cons a as ih =>
    intro bs hbs
    cases hfa : f a with
    | error e => simp [mapExcept, hfa] at hbs
    | ok b =>
      cases hrest : mapExcept f as with
      | error e => simp [mapExcept, hfa, hrest] at hbs
      | ok bs0 =>
        simp [mapExcept, hfa, hrest] at hbs
        subst hbs
        simp [hf a b hfa, ih bs0 hrest]

/-! ## Helper lemmas: the per-connection error history -/

theorem lookupHistory_setHistory (acc : ConnErrMap) (k : String)
    (v : List AppError) (q : String) :
    lookupHistory (setHistory acc k v) q =
      if q = k then some v else lookupHistory acc q := by
  by_cases hqk : q = k
  · subst hqk
    rw [if_pos rfl]
    induction acc with
    | nil => simp [setHistory, lookupHistory]
    | cons p rest ih =>
      obtain ⟨k0, v0⟩ := p
      by_cases hk : k0 = q
      · simp [setHistory, hk, lookupHistory]
      · simp [setHistory, hk, lookupHistory, ih]
  · rw [if_neg hqk]
    induction acc with
    | nil =>
      simp [setHistory, lookupHistory, show ¬(k = q) from fun h => hqk h.symm]
    | cons p rest ih =>
      obtain ⟨k0, v0⟩ := p
      by_cases hk : k0 = k
      · subst hk
        simp [setHistory, lookupHistory,
          show ¬(k0 = q) from fun h => hqk h.symm]
      · by_cases h0 : k0 = q
        · simp [setHistory, hk, lookupHistory, h0, hqk]
        · simp [setHistory, hk, lookupHistory, h0, ih]

theorem histInv_step (acc : ConnErrMap) (value : AppError)
    (hkey : strStartsWith value.key "connection_" = true) (hacc : HistInv acc) :
    HistInv (connectionErrorsStep acc value) := by
  unfold connectionErrorsStep
  cases hcid : value.detail.connectionId with
  | none => exact hacc
  | some cid =>
    by_cases hc : cid = ""
    · simp only [hc, if_pos rfl]
      exact hacc
    · simp only [if_neg hc]
      intro k l hl e he
      rw [lookupHistory_setHistory] at hl
      by_cases hk : k = cid
      · rw [if_pos hk] at hl
        have hl2 : l = ((lookupHistory acc cid).getD [] ++ [value]).take 10 :=
          (Option.some.injEq _ _ ▸ hl).symm
        subst hl2
        have hmem : e ∈ (lookupHistory acc cid).getD [] ++ [value] :=
          List.mem_of_mem_take he
        rcases List.mem_append.mp hmem with hold | hnew
        · cases hist : lookupHistory acc cid with
          | none => rw [hist] at hold; simp at hold
          | some l0 =>
            rw [hist] at hold
            simp at hold
            have := hacc cid l0 hist e hold
            exact ⟨this.1, by rw [this.2, hk]⟩
        · have hev : e = value := by simpa using hnew
          subst hev
          exact ⟨hkey, by rw [hcid, hk]⟩
      · rw [if_neg hk] at hl
        exact hacc k l hl e he

theorem histInv_foldl :
    ∀ (l : List AppError), (∀ e ∈ l, strStartsWith e.key "connection_" = true) →
      ∀ acc, HistInv acc → HistInv (l.foldl connectionErrorsStep acc) := by
  intro l
  induction l with
  | nil =>
    intro _ acc hacc
    exact hacc
  | cons x xs ih =>
    intro hall acc hacc
    simp only [List.foldl_cons]
    exact ih (fun e he => hall e (List.mem_cons_of_mem x he)) _
      (histInv_step acc x (hall x (List.mem_cons_self x xs)) hacc)

theorem histInv_nil : HistInv [] := by
  intro k l hl
  simp [lookupHistory] at hl

/-! ## Claim theorems -/

/-- Claim C2: evaluating the error-history fold at the failing input.  After
pushing the 15 sequential errors `testError 0 .. testError 14` for
connection "c1", the stored history is exactly the FIRST ten pushed errors
`testError 0 .. testError 9` — not the last ten `testError 5 .. testError 14`
that the claim (and the code's own comment "keep the last 10 errors only")
requires: `errors.length = Math.min(errors.length, 10)` truncates the end of
the array, so the newest errors are dropped and nothing is ever evicted
oldest-first. -/
theorem claim2_history_keeps_first_ten_errors :
    lookupHistory (connectionErrors ((List.range 15).map testError)) "c1" =
      some ((List.range 10).map testError) ∧
    (List.range 10).map testError ≠
      (List.range 10).map (fun i => testError (i + 5)) := by
  constructor
  · decide
  · decide

/-- Claim C4: evaluating the failing operation.  A failure inside
`payInvoice` of the wallets backend surfaces with context
"sendInvoice (offers)" — the copy-pasted literal of the neighbouring
operation — rather than a literal naming `payInvoice`; the sibling
`createPay` correctly carries "createPay (offers)". -/
theorem claim4_payInvoice_context_is_copy_paste :
    ((WalletsCoreln.Offers.payInvoice ⟨"wallet-1"⟩ "lno1abc" "rand01" 700
        (Except.error ⟨some (-32602), "pay failed"⟩)).result =
      Except.error
        (handleError ⟨some (-32602), "pay failed"⟩ "sendInvoice (offers)"
          "wallet-1")) ∧
    ((WalletsCoreln.Offers.payInvoice ⟨"wallet-1"⟩ "lno1abc" "rand01" 700
        (Except.error ⟨some (-32602), "pay failed"⟩)).emitted.map
          ConnectionError.context = ["sendInvoice (offers)"]) ∧
    ("sendInvoice (offers)" : String) ≠ "payInvoice (offers)" ∧
    ((WalletsCoreln.Offers.createPay ⟨"wallet-1"⟩
        ⟨none, "d", none, "l", none, none, none⟩ 0
        (Except.error ⟨none, "boom"⟩)).emitted.map
          ConnectionError.context = ["createPay (offers)"]) := by
  refine ⟨by decide, by decide, by decide, by decide⟩

/-- Claim C6: evaluating both builders of the wallets backend at
`expiry = 100` with `nowSeconds() = 1000`.  Both RPC calls carry the
absolute `absolute_expiry = 1100`, and `createPay` returns an Offer with the
absolute `expiry = 1100`, but `createWithdraw` returns an Offer whose
`expiry` is the raw relative input `100` — mixing relative and absolute
semantics within one build, contrary to the claim and to the data model's
"expiry (absolute Unix-seconds)". -/
theorem claim6_createWithdraw_returns_relative_expiry :
    ((WalletsCoreln.Offers.createPay ⟨"w"⟩
        ⟨some "21", "d", none, "pl", none, some 100, none⟩ 1000
        (Except.ok ⟨"oid", "bp", false, false, true⟩)).requests.map
          (fun r => lookupField (requestFields r) "absolute_expiry") =
      [some (RpcParam.num 1100)]) ∧
    ((WalletsCoreln.Offers.createPay ⟨"w"⟩
        ⟨some "21", "d", none, "pl", none, some 100, none⟩ 1000
        (Except.ok ⟨"oid", "bp", false, false, true⟩)).result.map
          Offer.expiry = Except.ok (some 1100)) ∧
    ((WalletsCoreln.Offers.createWithdraw ⟨"w"⟩
        ⟨"21", "d", none, "wl", some 100, none⟩ 1000
        (Except.ok ⟨"iid", "bw", false, false, true⟩)).requests.map
          (fun r => lookupField (requestFields r) "absolute_expiry") =
      [some (RpcParam.num 1100)]) ∧
    ((WalletsCoreln.Offers.createWithdraw ⟨"w"⟩
        ⟨"21", "d", none, "wl", some 100, none⟩ 1000
        (Except.ok ⟨"iid", "bw", false, false, true⟩)).result.map
          Offer.expiry = Except.ok (some 100)) ∧
    (some (100 : Nat) ≠ some (1100 : Nat)) := by
  refine ⟨by decide, by decide, by decide, by decide, by decide⟩

/-- Claim C1 (amended): in the wallets backend, every public operation
(get, createPay, disablePay, createWithdraw, disableWithdraw, fetchInvoice,
sendInvoice, payInvoice) that throws a `ConnectionError` pushes exactly that
error onto the connection's error channel before re-throwing, and likewise
the intermediate connections backend; the legacy connections backend maps
failures but re-throws them without pushing anything. -/
theorem claim1_failures_pushed_before_rethrow :
    (∀ conn lo li dec e,
      (WalletsCoreln.Offers.get conn lo li dec).result = Except.error e →
      (WalletsCoreln.Offers.get conn lo li dec).emitted = [e]) ∧
    (∀ conn opts now rpc e,
      (WalletsCoreln.Offers.createPay conn opts now rpc).result = Except.error e →
      (WalletsCoreln.Offers.createPay conn opts now rpc).emitted = [e]) ∧
    (∀ conn offerId rpc e,
      (WalletsCoreln.Offers.disablePay conn offerId rpc).result = Except.error e →
      (WalletsCoreln.Offers.disablePay conn offerId rpc).emitted = [e]) ∧
    (∀ conn opts now rpc e,
      (WalletsCoreln.Offers.createWithdraw conn opts now rpc).result =
        Except.error e →
      (WalletsCoreln.Offers.createWithdraw conn opts now rpc).emitted = [e]) ∧
    (∀ conn invoiceRequestId rpc e,
      (WalletsCoreln.Offers.disableWithdraw conn invoiceRequestId rpc).result =
        Except.error e →
      (WalletsCoreln.Offers.disableWithdraw conn invoiceRequestId rpc).emitted =
        [e]) ∧
    (∀ conn opts rpc e,
      (WalletsCoreln.Offers.fetchInvoice conn opts rpc).result = Except.error e →
      (WalletsCoreln.Offers.fetchInvoice conn opts rpc).emitted = [e]) ∧
    (∀ conn opts now rpc e,
      (WalletsCoreln.Offers.sendInvoice conn opts now rpc).result =
        Except.error e →
      (WalletsCoreln.Offers.sendInvoice conn opts now rpc).emitted = [e]) ∧
    (∀ conn bolt12 randomHex now rpc e,
      (WalletsCoreln.Offers.payInvoice conn bolt12 randomHex now rpc).result =
        Except.error e →
      (WalletsCoreln.Offers.payInvoice conn bolt12 randomHex now rpc).emitted =
        [e]) ∧
    (∀ conn opts rpc e,
      (Part000.Offers.createPay conn opts rpc).result = Except.error e →
      (Part000.Offers.createPay conn opts rpc).emitted = [e]) ∧
    (∀ conn opts rpc,
      (ConnectionsCoreln.Offers.createPay conn opts rpc).emitted = []) ∧
    (∀ conn opts now rpc,
      (ConnectionsCoreln.Offers.sendInvoice conn opts now rpc).emitted = []) := by
  refine ⟨?_, ?_, ?_, ?_, ?_, ?_, ?_, ?_, ?_, ?_, ?_⟩
  · intro conn lo li dec e h
    exact wrapOp_push_of_error _ _ _ _ e h
  · intro conn opts now rpc e h
    exact wrapOp_push_of_error _ _ _ _ e h
  · intro conn offerId rpc e h
    exact wrapOp_push_of_error _ _ _ _ e h
  · intro conn opts now rpc e h
    exact wrapOp_push_of_error _ _ _ _ e h
  · intro conn invoiceRequestId rpc e h
    exact wrapOp_push_of_error _ _ _ _ e h
  · intro conn opts rpc e h
    exact wrapOp_push_of_error _ _ _ _ e h
  · intro conn opts now rpc e h
    exact wrapOp_push_of_error _ _ _ _ e h
  · intro conn bolt12 randomHex now rpc e h
    exact wrapOp_push_of_error _ _ _ _ e h
  · intro conn opts rpc e h
    exact wrapOp_push_of_error _ _ _ _ e h
  · intro conn opts rpc
    exact legacyWrapOp_emitted _ _ _
  · intro conn opts now rpc
    exact legacyWrapOp_emitted _ _ _

/-- Claim C1 witness: a concrete failing `createPay` on the wallets backend
pushes exactly the thrown error. -/
theorem claim1_failures_pushed_before_rethrow_witness :
    (WalletsCoreln.Offers.createPay ⟨"w1"⟩ ⟨none, "d", none, "l", none, none, none⟩
        0 (Except.error ⟨none, "boom"⟩)).emitted =
      [handleError ⟨none, "boom"⟩ "createPay (offers)" "w1"] :=
  claim1_failures_pushed_before_rethrow.2.1 ⟨"w1"⟩
    ⟨none, "d", none, "l", none, none, none⟩ 0 (Except.error ⟨none, "boom"⟩)
    (handleError ⟨none, "boom"⟩ "createPay (offers)" "w1") (by decide)

/-- Claim C1 counterexample: a concrete failing `createPay` on the legacy
connections backend re-throws the mapped `ConnectionError` to the caller
while pushing nothing onto any error channel — refuting "no operation
re-throws without first pushing" over the cited code. -/
theorem claim1_legacy_rethrows_without_pushing :
    ((ConnectionsCoreln.Offers.createPay ⟨⟨"node1", "conn1"⟩⟩
        ⟨none, "d", none, "l", none, none, none⟩
        (Except.error ⟨none, "boom"⟩)).result =
      Except.error (legacyHandleError ⟨none, "boom"⟩ "createPay (offers)")) ∧
    ((ConnectionsCoreln.Offers.createPay ⟨⟨"node1", "conn1"⟩⟩
        ⟨none, "d", none, "l", none, none, none⟩
        (Except.error ⟨none, "boom"⟩)).emitted = []) := by
  refine ⟨by decide, by decide⟩

/-- Claim C3 (amended): `sendInvoice` issues `sendinvoice` with a positional
amount-conditional parameter list — `[offer, label, A, timeout, quantity]`
when an amount is present and `[offer, label, timeout, quantity]` with the
amount slot absent entirely when it is not — where the amount slot `A` is
`satsToMsats(amount)` in the wallets backend but the verbatim input amount
in the legacy connections backend, so the concrete example
`amount = "5000"` issues `"5000000"` from the wallets backend and `"5000"`
only from the legacy backend. -/
theorem claim3_sendInvoice_positional_params :
    (∀ (conn : CorelnConnection) (offer label a : String) (t q : Option Nat)
        (now : Nat) rpc, a ≠ "" →
      (WalletsCoreln.Offers.sendInvoice conn ⟨offer, label, some a, t, q⟩ now
          rpc).requests =
        [⟨"sendinvoice", RpcParams.pos [RpcParam.str offer, RpcParam.str label,
          RpcParam.str (satsToMsats a), optNum t, optNum q]⟩]) ∧
    (∀ (conn : CorelnConnection) (offer label : String) (t q : Option Nat)
        (now : Nat) rpc,
      (WalletsCoreln.Offers.sendInvoice conn ⟨offer, label, none, t, q⟩ now
          rpc).requests =
        [⟨"sendinvoice", RpcParams.pos [RpcParam.str offer, RpcParam.str label,
          optNum t, optNum q]⟩]) ∧
    (∀ (conn : LegacyCorelnConnection) (offer label a : String)
        (t q : Option Nat) (now : Nat) rpc, a ≠ "" →
      (ConnectionsCoreln.Offers.sendInvoice conn ⟨offer, label, some a, t, q⟩
          now rpc).requests =
        [⟨"sendinvoice", RpcParams.pos [RpcParam.str offer, RpcParam.str label,
          RpcParam.str a, optNum t, optNum q]⟩]) ∧
    (∀ (conn : LegacyCorelnConnection) (offer label : String)
        (t q : Option Nat) (now : Nat) rpc,
      (ConnectionsCoreln.Offers.sendInvoice conn ⟨offer, label, none, t, q⟩
          now rpc).requests =
        [⟨"sendinvoice", RpcParams.pos [RpcParam.str offer, RpcParam.str label,
          optNum t, optNum q]⟩]) := by
  refine ⟨?_, ?_, ?_, ?_⟩
  · intro conn offer label a t q now rpc ha
    have hne : ¬(satsToMsats a = "") := natToDecStr_ne_empty _
    simp [WalletsCoreln.Offers.sendInvoice, jsAndStr, jsTruthyStr, ha, hne,
      wrapOp_requests, optStr]
  · intro conn offer label t q now rpc
    simp [WalletsCoreln.Offers.sendInvoice, jsAndStr, jsTruthyStr,
      wrapOp_requests]
  · intro conn offer label a t q now rpc ha
    simp [ConnectionsCoreln.Offers.sendInvoice, jsTruthyStr, ha,
      legacyWrapOp_requests, optStr]
  · intro conn offer label t q now rpc
    simp [ConnectionsCoreln.Offers.sendInvoice, jsTruthyStr,
      legacyWrapOp_requests]

/-- Claim C3 witness: the concrete example `amount = "5000"`, `timeout = 30`,
`quantity = 1` on the wallets backend, with the conversion evaluated. -/
theorem claim3_sendInvoice_positional_params_witness :
    ((WalletsCoreln.Offers.sendInvoice ⟨"w"⟩
        ⟨"lno1offer", "lbl", some "5000", some 30, some 1⟩ 0
        (Except.error ⟨none, "x"⟩)).requests =
      [⟨"sendinvoice", RpcParams.pos [RpcParam.str "lno1offer",
        RpcParam.str "lbl", RpcParam.str (satsToMsats "5000"),
        optNum (some 30), optNum (some 1)]⟩]) ∧
    satsToMsats "5000" = "5000000" :=
  ⟨claim3_sendInvoice_positional_params.1 ⟨"w"⟩ "lno1offer" "lbl" "5000"
    (some 30) (some 1) 0 (Except.error ⟨none, "x"⟩) (by decide), by decide⟩

/-- Claim C3 counterexample: on the wallets backend the concrete example
`sendInvoice({offer, label, amount := "5000", timeout := 30, quantity := 1})`
issues params `[offer, label, "5000000", 30, 1]`, not the claimed
`[offer, label, "5000", 30, 1]`. -/
theorem claim3_wallets_amount_is_converted :
    ((WalletsCoreln.Offers.sendInvoice ⟨"w"⟩
        ⟨"lno1offer", "lbl", some "5000", some 30, some 1⟩ 0
        (Except.error ⟨none, "x"⟩)).requests =
      [⟨"sendinvoice", RpcParams.pos [RpcParam.str "lno1offer",
        RpcParam.str "lbl", RpcParam.str "5000000", RpcParam.num 30,
        RpcParam.num 1]⟩]) ∧
    [RpcParam.str "lno1offer", RpcParam.str "lbl", RpcParam.str "5000000",
        RpcParam.num 30, RpcParam.num 1] ≠
      [RpcParam.str "lno1offer", RpcParam.str "lbl", RpcParam.str "5000",
        RpcParam.num 30, RpcParam.num 1] := by
  refine ⟨by decide, by decide⟩

/-- Claim C7 (amended): in the wallets backend `createPay` sends
`amount = satsToMsats(amount)` when an amount is present and the sentinel
`'any'` when it is absent; in the legacy and intermediate connections
backends the `amount` parameter is passed through verbatim, and absence
yields an undefined parameter, not `'any'`. -/
theorem claim7_createPay_amount_parameter :
    (∀ (conn : CorelnConnection) (a d : String) (i : Option String)
        (l : String) (qm ex : Option Nat) (su : Option Bool) (now : Nat) rpc,
      a ≠ "" →
      ((WalletsCoreln.Offers.createPay conn ⟨some a, d, i, l, qm, ex, su⟩ now
          rpc).requests.map
            (fun r => lookupField (requestFields r) "amount")) =
        [some (RpcParam.str (satsToMsats a))]) ∧
    (∀ (conn : CorelnConnection) (d : String) (i : Option String) (l : String)
        (qm ex : Option Nat) (su : Option Bool) (now : Nat) rpc,
      ((WalletsCoreln.Offers.createPay conn ⟨none, d, i, l, qm, ex, su⟩ now
          rpc).requests.map
            (fun r => lookupField (requestFields r) "amount")) =
        [some (RpcParam.str "any")]) ∧
    (∀ (conn : LegacyCorelnConnection) (am : Option String) (d : String)
        (i : Option String) (l : String) (qm ex : Option Nat)
        (su : Option Bool) rpc,
      ((ConnectionsCoreln.Offers.createPay conn ⟨am, d, i, l, qm, ex, su⟩
          rpc).requests.map
            (fun r => lookupField (requestFields r) "amount")) =
        [some (optStr am)]) ∧
    (∀ (conn : LegacyCorelnConnection) (am : Option String) (d : String)
        (i : Option String) (l : String) (qm ex : Option Nat)
        (su : Option Bool) rpc,
      ((Part000.Offers.createPay conn ⟨am, d, i, l, qm, ex, su⟩
          rpc).requests.map
            (fun r => lookupField (requestFields r) "amount")) =
        [some (optStr am)]) := by
  refine ⟨?_, ?_, ?_, ?_⟩
  · intro conn a d i l qm ex su now rpc ha
    simp [WalletsCoreln.Offers.createPay, jsTruthyStr, ha, wrapOp_requests,
      requestFields, lookupField, List.lookup]
  · intro conn d i l qm ex su now rpc
    simp [WalletsCoreln.Offers.createPay, jsTruthyStr, wrapOp_requests,
      requestFields, lookupField, List.lookup]
  · intro conn am d i l qm ex su rpc
    simp [ConnectionsCoreln.Offers.createPay, legacyWrapOp_requests,
      requestFields, lookupField, List.lookup]
  · intro conn am d i l qm ex su rpc
    simp [Part000.Offers.createPay, wrapOp_requests, requestFields,
      lookupField, List.lookup]

/-- Claim C7 witness: concrete present-amount and absent-amount calls on the
wallets backend, with the conversion evaluated. -/
theorem claim7_createPay_amount_parameter_witness :
    ((WalletsCoreln.Offers.createPay ⟨"w"⟩
        ⟨some "5000", "d", none, "l", none, none, none⟩ 0
        (Except.error ⟨none, "x"⟩)).requests.map
          (fun r => lookupField (requestFields r) "amount") =
      [some (RpcParam.str (satsToMsats "5000"))]) ∧
    ((WalletsCoreln.Offers.createPay ⟨"w"⟩
        ⟨none, "d", none, "l", none, none, none⟩ 0
        (Except.error ⟨none, "x"⟩)).requests.map
          (fun r => lookupField (requestFields r) "amount") =
      [some (RpcParam.str "any")]) ∧
    satsToMsats "5000" = "5000000" :=
  ⟨claim7_createPay_amount_parameter.1 ⟨"w"⟩ "5000" "d" none "l" none none
      none 0 (Except.error ⟨none, "x"⟩) (by decide),
   claim7_createPay_amount_parameter.2.1 ⟨"w"⟩ "d" none "l" none none none 0
      (Except.error ⟨none, "x"⟩),
   by decide⟩

/-- Claim C7 counterexample: on the legacy connections backend a `createPay`
call without an amount issues the `offer` RPC with an undefined `amount`
parameter, not the claimed sentinel `'any'`. -/
theorem claim7_legacy_absent_amount_is_not_any :
    ((ConnectionsCoreln.Offers.createPay ⟨⟨"node1", "conn1"⟩⟩
        ⟨none, "d", none, "l", none, none, none⟩
        (Except.error ⟨none, "x"⟩)).requests.map
          (fun r => lookupField (requestFields r) "amount") =
      [some RpcParam.undef]) ∧
    some RpcParam.undef ≠ some (RpcParam.str "any") := by
  refine ⟨by decide, by decide⟩

theorem except_seq_append {ε β : Type} (x y : Except ε (List β)) (os : List β)
    (h : (x >>= fun a => y >>= fun b => pure (a ++ b)) = Except.ok os) :
    ∃ a b, x = Except.ok a ∧ y = Except.ok b ∧ os = a ++ b := by
  cases x with
  | error e => simp only [exceptErrorBind] at h; exact absurd h (by simp)
  | ok a =>
    cases y with
    | error e =>
      simp only [exceptOkBind, exceptErrorBind] at h
      exact absurd h (by simp)
    | ok b =>
      simp only [exceptOkBind, exceptPure] at h
      injection h with h2
      exact ⟨a, b, rfl, rfl, h2.symm⟩

/-- Claim C5: for any pair of successful listing responses, `get()` of the
wallets backend returns one Offer per raw entry, all pay-offers first in the
RPC-returned order, then all invoice-requests in the RPC-returned order; the
decode function enters only the per-entry field content, never the order, so
the returned order is independent of decode completion order. -/
theorem claim5_get_preserves_order (conn : CorelnConnection)
    (lo : ListOffersResponse) (li : ListInvoiceRequestsResponse)
    (decodeBolt12 : String → Except RawError DecodedOffer) (os : List Offer)
    (h : (WalletsCoreln.Offers.get conn (Except.ok lo) (Except.ok li)
      decodeBolt12).result = Except.ok os) :
    os.map Offer.id = lo.offers.map OfferSummary.offer_id ++
      li.invoicerequests.map InvoiceRequestSummary.invreq_id ∧
    os.map Offer.type = lo.offers.map (fun _ => "pay") ++
      li.invoicerequests.map (fun _ => "withdraw") := by
  have hbody := wrapOp_result_ok _ _ _ _ _ h
  simp only [exceptOkBind] at hbody
  obtain ⟨fo, fi, hfo, hfi, hos⟩ := except_seq_append _ _ _ hbody
  subst hos
  have hid1 : ∀ (o : OfferSummary) (b : Offer),
      ((decodeBolt12 o.bolt12).map fun d =>
      ({ id := o.offer_id, active := o.active, singleUse := o.single_use,
         used := o.used, bolt12 := o.bolt12, label := o.label,
         walletId := some conn.walletId, description := d.description,
         type := "pay", denomination := d.denomination, amount := d.amount,
         issuer := d.issuer, expiry := none, quantityMax := none,
         nodeId := none, connectionId := none } : Offer)) = Except.ok b →
      b.id = o.offer_id ∧ b.type = "pay" := by
    intro o b hb
    cases hdec : decodeBolt12 o.bolt12 with
    | error e => rw [hdec] at hb; simp [Except.map] at hb
    | ok d =>
      rw [hdec] at hb
      simp only [Except.map] at hb
      injection hb with hb2
      rw [← hb2]
      exact ⟨rfl, rfl⟩
  have hid2 : ∀ (o : InvoiceRequestSummary) (b : Offer),
      ((decodeBolt12 o.bolt12).map fun d =>
      ({ id := o.invreq_id, active := o.active, singleUse := o.single_use,
         used := o.used, bolt12 := o.bolt12, label := o.label,
         walletId := some conn.walletId, description := d.description,
         type := "withdraw", denomination := d.denomination,
         amount := d.amount, issuer := d.issuer, expiry := none,
         quantityMax := none, nodeId := none, connectionId := none } :
           Offer)) = Except.ok b →
      b.id = o.invreq_id ∧ b.type = "withdraw" := by
    intro o b hb
    cases hdec : decodeBolt12 o.bolt12 with
    | error e => rw [hdec] at hb; simp [Except.map] at hb
    | ok d =>
      rw [hdec] at hb
      simp only [Except.map] at hb
      injection hb with hb2
      rw [← hb2]
      exact ⟨rfl, rfl⟩
  refine ⟨?_, ?_⟩
  · rw [List.map_append]
    rw [mapExcept_ok_map _ Offer.id OfferSummary.offer_id
        (fun o b hb => (hid1 o b hb).1) lo.offers fo hfo,
      mapExcept_ok_map _ Offer.id InvoiceRequestSummary.invreq_id
        (fun o b hb => (hid2 o b hb).1) li.invoicerequests fi hfi]
  · rw [List.map_append]
    rw [mapExcept_ok_map _ Offer.type (fun _ => "pay")
        (fun o b hb => (hid1 o b hb).2) lo.offers fo hfo,
      mapExcept_ok_map _ Offer.type (fun _ => "withdraw")
        (fun o b hb => (hid2 o b hb).2) li.invoicerequests fi hfi]

/-- Claim C5 witness: `get()` over one offer "o1" and one invoice request
"w1" returns `[Offer(id = o1, pay), Offer(id = w1, withdraw)]` in that
order. -/
theorem claim5_get_preserves_order_witness :
    ([({ id := "o1", bolt12 := "b1", type := "pay", denomination := "sats",
         amount := none, description := "d", issuer := none, label := none,
         active := true, singleUse := false, used := false, expiry := none,
         quantityMax := none, walletId := some "w", nodeId := none,
         connectionId := none } : Offer),
      ({ id := "w1", bolt12 := "b2", type := "withdraw",
         denomination := "sats", amount := none, description := "d",
         issuer := none, label := none, active := true, singleUse := false,
         used := false, expiry := none, quantityMax := none,
         walletId := some "w", nodeId := none, connectionId := none } :
           Offer)].map Offer.id = ["o1", "w1"]) ∧
    ([({ id := "o1", bolt12 := "b1", type := "pay", denomination := "sats",
         amount := none, description := "d", issuer := none, label := none,
         active := true, singleUse := false, used := false, expiry := none,
         quantityMax := none, walletId := some "w", nodeId := none,
         connectionId := none } : Offer),
      ({ id := "w1", bolt12 := "b2", type := "withdraw",
         denomination := "sats", amount := none, description := "d",
         issuer := none, label := none, active := true, singleUse := false,
         used := false, expiry := none, quantityMax := none,
         walletId := some "w", nodeId := none, connectionId := none } :
           Offer)].map Offer.type = ["pay", "withdraw"]) :=
  claim5_get_preserves_order ⟨"w"⟩ ⟨[⟨"o1", "b1", true, false, false, none⟩]⟩
    ⟨[⟨"w1", "b2", true, false, false, none⟩]⟩
    (fun _ => Except.ok ⟨"d", "sats", none, none⟩) _ (by decide)

/-- Claim C8: for every successful `payInvoice` call whose node-reported
msat amounts are well-formed and differ by exactly `1000 * k` msats, the
returned Invoice's fee is exactly `k` sats (in particular a zero difference
gives fee 0 and no error). -/
theorem claim8_payInvoice_fee_exact (conn : CorelnConnection)
    (bolt12 randomHex : String) (now : Nat) (r : PayResponse) (ma ms : String)
    (a k : Nat) (hma : formatMsatString r.amount_msat = Except.ok ma)
    (hms : formatMsatString r.amount_sent_msat = Except.ok ms)
    (ha : decStrToNat ma = some a)
    (hs : decStrToNat ms = some (a + 1000 * k)) :
    (WalletsCoreln.Offers.payInvoice conn bolt12 randomHex now
        (Except.ok r)).result.map Invoice.fee =
      Except.ok (some (natToDecStr k)) := by
  have hfee : msatsToSats (bigMinus ms ma) = natToDecStr k := by
    rw [bigMinus_eq ms ma a k ha hs]
    exact msatsToSats_natToDecStr k
  unfold WalletsCoreln.Offers.payInvoice
  simp only [exceptOkBind]
  rw [hma]
  simp only [exceptOkBind]
  rw [hms]
  simp only [exceptOkBind, exceptPure]
  simp [wrapOp, Except.map, hfee]

/-- Claim C8 witness: `amount_msat = "100000"`, `amount_sent_msat =
"101000"` yields fee "1"; equal amounts yield fee "0" without error. -/
theorem claim8_payInvoice_fee_exact_witness :
    ((WalletsCoreln.Offers.payInvoice ⟨"w"⟩ "lno1inv" "rand" 9
        (Except.ok ⟨"h", "p", 5, "100000", "101000", "complete",
          "dest"⟩)).result.map Invoice.fee =
      Except.ok (some (natToDecStr 1))) ∧
    ((WalletsCoreln.Offers.payInvoice ⟨"w"⟩ "lno1inv" "rand" 9
        (Except.ok ⟨"h", "p", 5, "100000", "100000", "complete",
          "dest"⟩)).result.map Invoice.fee =
      Except.ok (some (natToDecStr 0))) ∧
    natToDecStr 1 = "1" ∧ natToDecStr 0 = "0" :=
  ⟨claim8_payInvoice_fee_exact ⟨"w"⟩ "lno1inv" "rand" 9
      ⟨"h", "p", 5, "100000", "101000", "complete", "dest"⟩ "100000" "101000"
      100000 1 (by decide) (by decide) (by decide) (by decide),
   claim8_payInvoice_fee_exact ⟨"w"⟩ "lno1inv" "rand" 9
      ⟨"h", "p", 5, "100000", "100000", "complete", "dest"⟩ "100000" "100000"
      100000 0 (by decide) (by decide) (by decide) (by decide),
   by decide, by decide⟩

/-- Claim C9: for every successful `sendInvoice` call on the wallets
backend, the returned Invoice's `completedAt` equals the node-reported
`paid_at` whenever it was reported non-zero, and is synthesized as the
current time exactly when `paid_at` is absent or reported as 0. -/
theorem claim9_sendInvoice_completedAt (conn : CorelnConnection)
    (opts : SendInvoiceOptions) (now : Nat) (r : SendInvoiceResponse)
    (inv : Invoice)
    (h : (WalletsCoreln.Offers.sendInvoice conn opts now
      (Except.ok r)).result = Except.ok inv) :
    (∀ t, r.paid_at = some t → t ≠ 0 → inv.completedAt = t) ∧
    ((r.paid_at = none ∨ r.paid_at = some 0) → inv.completedAt = now) := by
  have hbody := wrapOp_result_ok _ _ _ _ _ h
  simp only [exceptOkBind] at hbody
  cases hm : formatMsatStringOpt (jsOrStr r.amount_received_msat
      (jsAndStr opts.amount satsToMsats)) with
  | error e =>
    rw [hm] at hbody
    simp only [exceptErrorBind] at hbody
    exact absurd hbody (by simp)
  | ok m =>
    rw [hm] at hbody
    simp only [exceptOkBind, exceptPure] at hbody
    injection hbody with h2
    subst h2
    constructor
    · intro t ht hne
      show jsNumOr r.paid_at now = t
      rw [ht]
      simp [jsNumOr, hne]
    · intro hc
      show jsNumOr r.paid_at now = now
      rcases hc with hc | hc <;> rw [hc] <;> simp [jsNumOr]

/-- Claim C9 witness: a node-reported `paid_at = 444` is kept, while a
node-reported `paid_at = 0` is replaced by the current time 123. -/
theorem claim9_sendInvoice_completedAt_witness :
    (({ id := "lbl", hash := "hash1", preimage := some "pre",
        type := "bolt12", direction := "receive", amount := some "1",
        value := none, fee := none, status := "complete",
        createdAt := some 123, startedAt := none, completedAt := 444,
        expiresAt := some 999, payIndex := some 7, request := some "b12",
        invoice := none, walletId := some "w", nodeId := none,
        connectionId := none } : Invoice).completedAt = 444) ∧
    (({ id := "lbl", hash := "hash1", preimage := some "pre",
        type := "bolt12", direction := "receive", amount := some "1",
        value := none, fee := none, status := "complete",
        createdAt := some 123, startedAt := none, completedAt := 123,
        expiresAt := some 999, payIndex := some 7, request := some "b12",
        invoice := none, walletId := some "w", nodeId := none,
        connectionId := none } : Invoice).completedAt = 123) :=
  ⟨(claim9_sendInvoice_completedAt ⟨"w"⟩ ⟨"off", "lbl", none, none, none⟩ 123
      ⟨"hash1", some "pre", "paid", some "b12", some 999, some 444,
        some "1000", some 7⟩ _ (by decide)).1 444 rfl (by decide),
   (claim9_sendInvoice_completedAt ⟨"w"⟩ ⟨"off", "lbl", none, none, none⟩ 123
      ⟨"hash1", some "pre", "paid", some "b12", some 999, some 0,
        some "1000", some 7⟩ _ (by decide)).2 (Or.inr rfl)⟩

/-- Claim C10: invariant of the accumulated per-connection error histories —
every stored error has a key starting with "connection_" and a
`detail.connectionId` equal to its history's key, and an event with a
non-"connection_" key or without a `detail.connectionId` leaves the whole
record unchanged. -/
theorem claim10_history_invariant :
    (∀ (events : List AppError) (k : String) (l : List AppError),
      lookupHistory (connectionErrors events) k = some l →
      ∀ e ∈ l, strStartsWith e.key "connection_" = true ∧
        e.detail.connectionId = some k) ∧
    (∀ (events : List AppError) (e : AppError),
      strStartsWith e.key "connection_" = false ∨
        e.detail.connectionId = none →
      connectionErrors (events ++ [e]) = connectionErrors events) := by
  constructor
  · intro events k l hl
    exact histInv_foldl _
      (fun e he => (List.mem_filter.mp he).2) [] histInv_nil k l hl
  · intro events e he
    unfold connectionErrors
    rw [List.filter_append]
    rcases he with hk | hcid
    · simp [List.filter, hk]
    · cases hpe : strStartsWith e.key "connection_" with
      | false => simp [List.filter, hpe]
      | true =>
        simp only [List.filter, hpe]
        rw [List.foldl_append]
        simp only [List.foldl_cons, List.foldl_nil]
        rw [show connectionErrorsStep
            ((List.filter (fun error =>
              strStartsWith error.key "connection_") events).foldl
                connectionErrorsStep []) e =
            (List.filter (fun error =>
              strStartsWith error.key "connection_") events).foldl
                connectionErrorsStep [] from by
          unfold connectionErrorsStep
          rw [hcid]]

/-- Claim C10 witness: a concrete connection error is stored under its own
connection id with its key prefix intact, while a wrong-key event and a
missing-id event leave the record unchanged. -/
theorem claim10_history_invariant_witness :
    (strStartsWith (AppError.mk "connection_rpc" ⟨some "c1", "m"⟩).key
        "connection_" = true ∧
      (AppError.mk "connection_rpc" ⟨some "c1", "m"⟩).detail.connectionId =
        some "c1") ∧
    (connectionErrors [⟨"connection_rpc", ⟨some "c1", "m"⟩⟩,
        ⟨"settings", ⟨some "c1", "m"⟩⟩] =
      connectionErrors [⟨"connection_rpc", ⟨some "c1", "m"⟩⟩]) ∧
    (connectionErrors [⟨"connection_rpc", ⟨some "c1", "m"⟩⟩,
        ⟨"connection_rpc", ⟨none, "m"⟩⟩] =
      connectionErrors [⟨"connection_rpc", ⟨some "c1", "m"⟩⟩]) :=
  ⟨claim10_history_invariant.1 [⟨"connection_rpc", ⟨some "c1", "m"⟩⟩] "c1"
      [⟨"connection_rpc", ⟨some "c1", "m"⟩⟩] (by decide)
      ⟨"connection_rpc", ⟨some "c1", "m"⟩⟩ (by simp),
   claim10_history_invariant.2 [⟨"connection_rpc", ⟨some "c1", "m"⟩⟩]
      ⟨"settings", ⟨some "c1", "m"⟩⟩ (Or.inl (by decide)),
   claim10_history_invariant.2 [⟨"connection_rpc", ⟨some "c1", "m"⟩⟩]
      ⟨"connection_rpc", ⟨none, "m"⟩⟩ (Or.inr rfl)⟩

end Remote
